import Mathlib

/-!
Shallow embedding of the CFD meshing pipeline orchestrator
(`src/nx/src/main.cpp`) from the CFD-Project repository.

The program drives an external geometry/meshing engine (gmsh).  Every call
into the engine is a synchronous oracle from the orchestrator's point of
view, so the embedding passes the engine's responses in explicitly (the
`Kernel` record below) and models the orchestration logic — argument
validation, bounding-box accumulation, domain synthesis, the tiered
entity-resolution fallbacks, the healing stage, the size/boundary-layer
field parameters and the staged mesh driver — as pure functions over those
responses.  `double` values are modelled as exact rationals (`ℚ`);
the floating-point rounding of the C++ program is not at issue in any of
the properties below.
-/

set_option maxHeartbeats 1000000

namespace CFD

/-- A gmsh entity reference: a (topological dimension, tag) pair,
`std::pair<int,int>` in the source. -/
abbrev Dimtag := ℤ × ℤ

/-- Boundary-layer parameters, mirroring `struct BoundaryLayerParams`
(main.cpp lines 25–34) with its C++ default member initializers. -/
structure BoundaryLayerParams where
  first_layer_thickness : ℚ := 1/20
  progression : ℚ := 6/5
  thickness : ℚ := 1/2
  num_layers : ℤ := 0
  smooth_normals : Bool := true
  angle_tolerance : ℚ := 30
  intersect_method : ℤ := 2
deriving Repr, DecidableEq

/-- The configuration parameters parsed from the command line
(main.cpp lines 82–90), with the program's defaults. -/
structure Config where
  domain_scale : ℚ := 5
  base_mesh_size : ℚ := 1/2
  mesh_algorithm_2d : ℤ := 5
  mesh_algorithm_3d : ℤ := 10
  optimize_netgen : Bool := true
  bl : BoundaryLayerParams := {}
deriving Repr, DecidableEq

/-- Parameter validation, mirroring main.cpp lines 142–148 in source order.
Returns the warnings printed to stderr together with either the (possibly
adjusted) configuration or the fatal error message.  A `.error` result
corresponds to `return EXIT_FAILURE` before any geometry work. -/
def validateParams (c : Config) : List String × Except String Config :=
  -- line 143: domain_scale <= 1.0 is only a warning; the value is replaced by 1.5
  let sw := if c.domain_scale ≤ 1 then
              (((3:ℚ)/2), ["Warning: domain_scale should be > 1.0"])
            else (c.domain_scale, [])
  -- line 144
  if c.base_mesh_size ≤ 0 then
    (sw.2, .error "Error: base_mesh_size must be positive.")
  -- line 145
  else if c.bl.first_layer_thickness ≤ 0 then
    (sw.2, .error "Error: bl_first_layer must be positive.")
  else
    -- line 146: progression <= 1.0 is only a warning, value kept
    let w2 := sw.2 ++ (if c.bl.progression ≤ 1 then
                         ["Warning: bl_progression should ideally be > 1.0"]
                       else [])
    -- line 147
    if c.bl.thickness ≤ 0 then
      (w2, .error "Error: bl_thickness must be positive.")
    -- line 148
    else if c.bl.thickness < c.bl.first_layer_thickness then
      (w2, .error "Error: bl_thickness cannot be smaller than bl_first_layer.")
    else
      (w2, .ok { c with domain_scale := sw.1 })

/-- An axis-aligned bounding box: six coordinates as in
`getBoundingBox` (xmin, ymin, zmin, xmax, ymax, zmax). -/
structure BBox where
  xmin : ℚ
  ymin : ℚ
  zmin : ℚ
  xmax : ℚ
  ymax : ℚ
  zmax : ℚ
deriving Repr, DecidableEq

/-- Component-wise min/max union of two bounding boxes (the expansion arm
of the accumulation loop, main.cpp lines 287–293). -/
def bboxUnion (a b : BBox) : BBox :=
  ⟨min a.xmin b.xmin, min a.ymin b.ymin, min a.zmin b.zmin,
   max a.xmax b.xmax, max a.ymax b.ymax, max a.zmax b.zmax⟩

/-- One iteration of the bounding-box accumulation loop
(main.cpp lines 276–295): the code decides whether the accumulator is
still "uninitialized" by testing `xmin == 0 && xmax == 0` on the
accumulator, and in that case REPLACES the whole accumulator with the
current entity's box instead of expanding it. -/
def accumStep (acc : BBox) (b : BBox) : BBox :=
  if acc.xmin = 0 ∧ acc.xmax = 0 then b else bboxUnion acc b

/-- The bounding box the program computes for the imported geometry:
fold of `accumStep` over the per-entity boxes, starting from the
all-zero initialization of main.cpp line 273. -/
def accumBBox (boxes : List BBox) : BBox :=
  boxes.foldl accumStep ⟨0, 0, 0, 0, 0, 0⟩

/-- Modelled from the spec: the geometry bounding box as the claims state
it — the component-wise min/max fold over the entity boxes (no sentinel
re-initialization).  Used only to compare the code's accumulation with
the specified one; the head entity seeds the fold. -/
def foldBBox (b : BBox) (bs : List BBox) : BBox :=
  bs.foldl bboxUnion b

/-- The largest axis extent of a bounding box
(`max_geom_dim`, main.cpp line 302). -/
def maxGeomDim (bb : BBox) : ℚ :=
  max (bb.xmax - bb.xmin) (max (bb.ymax - bb.ymin) (bb.zmax - bb.zmin))

/-- The synthesized domain box, as passed to `occ::addBox`
(main.cpp lines 312–317): a corner pointand the three extents. -/
structure Box3 where
  x0 : ℚ
  y0 : ℚ
  z0 : ℚ
  dx : ℚ
  dy : ℚ
  dz : ℚ
deriving Repr, DecidableEq

/-- Domain synthesis (main.cpp lines 297–317): extents are
`domain_scale × (max − min)` per axis, any axis whose scaled extent is
below 1% of the largest geometry extent is replaced by that largest
extent, and the box is centered on the geometry bounding-box centroid. -/
def synthDomain (scale : ℚ) (bb : BBox) : Box3 :=
  let cx := (bb.xmax + bb.xmin) / 2
  let cy := (bb.ymax + bb.ymin) / 2
  let cz := (bb.zmax + bb.zmin) / 2
  let m := maxGeomDim bb
  let dx0 := scale * (bb.xmax - bb.xmin)
  let dy0 := scale * (bb.ymax - bb.ymin)
  let dz0 := scale * (bb.zmax - bb.zmin)
  let dx := if dx0 < m / 100 then m else dx0
  let dy := if dy0 < m / 100 then m else dy0
  let dz := if dz0 < m / 100 then m else dz0
  ⟨cx - dx / 2, cy - dy / 2, cz - dz / 2, dx, dy, dz⟩

/-- Strict containment of a bounding box inside a domain box on every
axis (the interior of the domain strictly contains the geometry box). -/
def strictlyContains (d : Box3) (bb : BBox) : Prop :=
  d.x0 < bb.xmin ∧ bb.xmax < d.x0 + d.dx ∧
  d.y0 < bb.ymin ∧ bb.ymax < d.y0 + d.dy ∧
  d.z0 < bb.zmin ∧ bb.zmax < d.z0 + d.dz

instance (d : Box3) (bb : BBox) : Decidable (strictlyContains d bb) := by
  unfold strictlyContains; infer_instance

/-- The entities newly introduced by the import: `ents_after` minus
`ents_before` by element-wise membership, preserving the order of
`ents_after` (main.cpp lines 233–238). -/
def importedEntities (entsBefore entsAfter : List Dimtag) : List Dimtag :=
  entsAfter.filter (fun e => ¬ entsBefore.contains e)

/-- Tier 1 of intake-surface resolution as the code performs it
(main.cpp lines 488–496): the code reads `outDimTagsMap[0]` — the map
entry of the FIRST fragmentation input, i.e. the domain box object —
and keeps its dimension-2 entries. -/
def tier1Intake (fragMap : List (List Dimtag)) : List Dimtag :=
  match fragMap with
  | [] => []
  | e :: _ => e.filter (fun dt => dt.1 = 2)

/-- Modelled from the spec: tier 1 of intake-surface resolution as the
spec states it — the dimension-2 entries of fragmentation-map entry
INDEX 1, the entry of the imported-geometry input.  Present only to
compare the specified behaviour against `tier1Intake`, which is what
the code computes. -/
def tier1IntakeSpec (fragMap : List (List Dimtag)) : List Dimtag :=
  match fragMap with
  | _ :: e :: _ => e.filter (fun dt => dt.1 = 2)
  | _ => []

/-- Tier 2 of intake-surface resolution (main.cpp lines 499–521): all
boundary surfaces of the fluid volume whose tag is not among the domain
box's own boundary-surface tags. -/
def tier2Intake (fluidBoundary : List Dimtag) (domainBoxTags : List ℤ) :
    List Dimtag :=
  fluidBoundary.filter (fun s => ¬ domainBoxTags.contains s.2)

/-- The full intake-surface resolution (main.cpp lines 485–533): tier 1
from the fragmentation map; if empty, tier 2 (non-box boundary
surfaces); if still empty, tier 3 takes every fluid boundary surface. -/
def resolveIntakeSurfaces (fragMap : List (List Dimtag))
    (fluidBoundary : List Dimtag) (domainBoxTags : List ℤ) : List Dimtag :=
  let t1 := tier1Intake fragMap
  if t1 ≠ [] then t1
  else
    let t2 := tier2Intake fluidBoundary domainBoxTags
    if t2 ≠ [] then t2 else fluidBoundary

/-- The intake-surface stage including the fatal emptiness check of
main.cpp lines 535–538: an empty result after all three tiers aborts
the run. -/
def intakeStage (fragMap : List (List Dimtag)) (fluidBoundary : List Dimtag)
    (domainBoxTags : List ℤ) : Except String (List Dimtag) :=
  let r := resolveIntakeSurfaces fragMap fluidBoundary domainBoxTags
  if r = [] then .error "Error: Could not identify intake surfaces."
  else .ok r

/-- Tier 1 of boundary-edge resolution (main.cpp lines 540–548): the tags
of the dimension-1 entries of the combined boundary of the resolved
intake surfaces. -/
def tier1EdgeTags (boundaryCurves : List Dimtag) : List ℤ :=
  (boundaryCurves.filter (fun c => c.1 = 1)).map (fun c => c.2)

/-- The per-surface edge enumeration of main.cpp lines 562–570: for each
intake surface, the dimension-1 entries of that surface's own boundary
query, concatenated over the surfaces in order. -/
def perSurfaceEdges (surfEdges : ℤ → List Dimtag)
    (intake : List Dimtag) : List Dimtag :=
  intake.flatMap (fun s => (surfEdges s.2).filter (fun e => e.1 = 1))

/-- The final edge selection (main.cpp lines 540–585): the tier-1 tags
are computed first, then the per-surface enumeration is ALWAYS run and,
whenever it returns any edge, its result replaces the tier-1 tags
(lines 572–578). -/
def resolveEdgeTags (boundaryCurves : List Dimtag)
    (surfEdges : ℤ → List Dimtag) (intake : List Dimtag) : List ℤ :=
  let e1 := tier1EdgeTags boundaryCurves
  let allEdges := perSurfaceEdges surfEdges intake
  if allEdges ≠ [] then allEdges.map (fun e => e.2) else e1

/-- The fluid-volume determination before healing (main.cpp lines
343–415): the volumes present after fragmentation; if none, a volume
synthesized from a surface loop of all surfaces (on success the volume
list is re-queried); if still none, a margin box around the global
bounding box is added and used. -/
def resolveVolumes (volsAfterFrag surfacesPreVol : List Dimtag)
    (surfaceLoopOk : Bool) (volsAfterLoopCreate : List Dimtag)
    (lastResortBoxTag : ℤ) : List Dimtag :=
  if volsAfterFrag ≠ [] then volsAfterFrag
  else
    let vols :=
      if surfacesPreVol ≠ [] ∧ surfaceLoopOk then volsAfterLoopCreate else []
    if vols ≠ [] then vols else [(3, lastResortBoxTag)]

/-- The outcome of one blocking engine call, distinguishing the two
exception paths of the C++ code: a failure caught by a
`catch (const std::exception&)` handler versus one that only a
`catch (...)` handler receives. -/
inductive Outcome
  | ok
  | failStd
  | failUnknown
deriving Repr, DecidableEq, Fintype

/-- The healing stage (main.cpp lines 417–440): healing runs only on a
non-empty volume set; on success the volume list is re-queried; a
failure thrown as `std::exception` is caught by the handler at line 437
and the pre-heal volume set is left unchanged; a failure outside the
`std::exception` hierarchy escapes the heal handler to the outermost
`catch (...)` (line 735) and aborts the run. -/
def healStage (preHeal : List Dimtag) (heal : Outcome)
    (volsAfterHeal : List Dimtag) : Except String (List Dimtag) :=
  if preHeal = [] then .ok preHeal
  else
    match heal with
    | .ok => .ok volsAfterHeal
    | .failStd => .ok preHeal
    | .failUnknown =>
      .error "An unknown error occurred during the meshing process."

/-- Size-field parameters (main.cpp lines 605–616): SizeMin/SizeMax from
the base mesh size, DistMin/DistMax from the geometry max dimension. -/
structure SizeFieldParams where
  sizeMin : ℚ
  sizeMax : ℚ
  distMin : ℚ
  distMax : ℚ
deriving Repr, DecidableEq

/-- The size-field parameter computation of main.cpp lines 612–615. -/
def sizeFieldParams (baseMeshSize maxDim : ℚ) : SizeFieldParams :=
  ⟨baseMeshSize / 5, baseMeshSize, maxDim / 10, maxDim / 2⟩

/-- Boundary-layer field parameters as set on the BoundaryLayer field
(main.cpp lines 633–652). -/
structure BLField where
  size : ℚ
  ratio : ℚ
  thickness : ℚ
  nbLayers : Option ℤ
  smoothNormals : Bool
  angleTol : ℚ
  intersectMetrics : ℤ
deriving Repr, DecidableEq

/-- Construction of the boundary-layer field parameters from the
configuration (main.cpp lines 633–652); `NbLayers` is set only when the
configured layer count is positive (line 640). -/
def blFieldOf (p : BoundaryLayerParams) : BLField :=
  ⟨p.first_layer_thickness, p.progression, p.thickness,
   if 0 < p.num_layers then some p.num_layers else none,
   p.smooth_normals, p.angle_tolerance, p.intersect_method⟩

/-- The engine outcomes the mesh driver can observe: the three
`generate` stages, the retried 2D stage, and whether the debug-dump
`write` succeeds. -/
structure MeshOutcomes where
  gen1 : Outcome
  gen2 : Outcome
  gen2retry : Outcome
  gen3 : Outcome
  debugWriteOk : Bool
deriving Repr, DecidableEq, Fintype

/-- An observable action of the mesh driver. -/
inductive MeshAct
  | generate (dim : ℕ)
  | setAlg2D (alg : ℤ)
  | writeDebug
deriving Repr, DecidableEq

/-- The staged mesh driver (main.cpp lines 680–713) as a transliteration
of its nested try/catch structure.  `generate(1)`, then `generate(2)`
with an inner handler that — only for `std::exception` failures — sets
the 2D algorithm to 3 (MeshAdapt) and retries once, then `generate(3)`.
The outer `std::exception` handler attempts the `_debug` mesh dump
(whose own failure is swallowed: `debugWriteOk` does not influence the
result) and fails; the outer `catch (...)` handler fails without any
dump.  Returns the trace of actions and whether meshing succeeded. -/
def meshDriver (o : MeshOutcomes) : List MeshAct × Bool :=
  match o.gen1 with
  | .failStd => ([.generate 1, .writeDebug], false)
  | .failUnknown => ([.generate 1], false)
  | .ok =>
    match o.gen2 with
    | .ok =>
      match o.gen3 with
      | .ok => ([.generate 1, .generate 2, .generate 3], true)
      | .failStd => ([.generate 1, .generate 2, .generate 3, .writeDebug], false)
      | .failUnknown => ([.generate 1, .generate 2, .generate 3], false)
    | .failUnknown => ([.generate 1, .generate 2], false)
    | .failStd =>
      match o.gen2retry with
      | .ok =>
        match o.gen3 with
        | .ok =>
          ([.generate 1, .generate 2, .setAlg2D 3, .generate 2, .generate 3],
           true)
        | .failStd =>
          ([.generate 1, .generate 2, .setAlg2D 3, .generate 2, .generate 3,
            .writeDebug], false)
        | .failUnknown =>
          ([.generate 1, .generate 2, .setAlg2D 3, .generate 2, .generate 3],
           false)
      | .failStd =>
        ([.generate 1, .generate 2, .setAlg2D 3, .generate 2, .writeDebug],
         false)
      | .failUnknown =>
        ([.generate 1, .generate 2, .setAlg2D 3, .generate 2], false)

/-- A geometry/mesh engine call observable from the orchestrator, used
to record that nothing is asked of the engine before validation. -/
inductive KCall
  | getEntities
  | merge
  | getBoundingBox
  | addBox
  | fragment
  | addSurfaceLoop
  | addVolume
  | healShapes
  | getBoundary
  | createEdges
  | fieldSetup
  | generateMesh
  | writeMesh
deriving Repr, DecidableEq

/-- The responses of the external engine for one run: every synchronous
call the orchestrator can make has its answer recorded here, indexed by
call site (re-queries after model mutations get their own fields). -/
structure Kernel where
  entsBefore : List Dimtag
  entsAfter : List Dimtag
  mergeOk : Bool
  entBBox : Dimtag → BBox
  fragOk : Bool
  fragMap : List (List Dimtag)
  volsAfterFrag : List Dimtag
  surfacesPreVol : List Dimtag
  surfaceLoopOk : Bool
  volsAfterLoopCreate : List Dimtag
  lastResortBoxTag : ℤ
  heal : Outcome
  volsAfterHeal : List Dimtag
  surfacesAfterHeal : List Dimtag
  fluidBoundaryOk : Bool
  fluidBoundary : List Dimtag
  domainBoundaryOk : Bool
  domainBoxSurfaces : List Dimtag
  boundaryCurves : List Dimtag
  edgeEnumOk : Bool
  surfEdges : ℤ → List Dimtag
  mesh : MeshOutcomes
  exportOk : Bool

/-- Everything the run resolves and configures: the claims about
idempotence quantify over this record. -/
structure PipeResult where
  domain : Box3
  fluidVolumeTag : ℤ
  intakeSurfaces : List Dimtag
  edgeTags : List ℤ
  sizeField : SizeFieldParams
  blField : Option BLField
deriving Repr, DecidableEq

/-- The pipeline from the fluid-volume selection onward (main.cpp lines
442 to 729), taking the post-heal volume list: fluid-volume tag choice
(first volume, else surface-only continuation with tag −1, else fatal),
fluid-boundary query with its caught-failure and emptiness fallbacks,
the three-tier intake-surface resolution, the two-tier edge resolution,
the size and boundary-layer fields, the staged mesh driver and the
final export. -/
def pipelineRest (c : Config) (k : Kernel) (dom : Box3) (m : ℚ)
    (t : List KCall) (vols : List Dimtag) :
    Except String PipeResult × List KCall :=
  -- lines 448–468: fluid volume tag, or surface-only continuation
  let fluidSel : Except String (ℤ × List KCall) :=
    match vols with
    | v :: _ => .ok (v.2, t)
    | [] =>
      if k.surfacesAfterHeal = [] then
        .error "Error: No surfaces available either. Cannot continue."
      else .ok (-1, t ++ [.getEntities])
  match fluidSel with
  | .error e => (.error e, t ++ [.getEntities])
  | .ok (fluidTag, t1) =>
    -- lines 471–483: boundary of the fluid volume, with fallbacks
    let fb0 := if k.fluidBoundaryOk then k.fluidBoundary
               else k.surfacesAfterHeal
    let fb := if fb0 = [] then k.surfacesAfterHeal else fb0
    let t2 := t1 ++ [.getBoundary]
    -- lines 485–538: intake surfaces; the tier-2 boundary query of the
    -- domain box (line 504) is not wrapped in a try block, so its
    -- failure propagates to the outermost handler and is fatal
    if tier1Intake k.fragMap = [] ∧ ¬ k.domainBoundaryOk then
      (.error "Error in Gmsh operation: getBoundary failed", t2 ++ [.getBoundary])
    else
      let t3 := t2 ++ (if tier1Intake k.fragMap = [] then [.getBoundary] else [])
      let intake := resolveIntakeSurfaces k.fragMap fb
        (k.domainBoxSurfaces.map (fun s => s.2))
      if intake = [] then
        (.error "Error: Could not identify intake surfaces.", t3)
      else
        -- lines 540–585: edge resolution; the explicit enumeration block
        -- is wrapped in a try whose caught failure leaves the tier-1 tags
        let edgeTags :=
          if k.edgeEnumOk then resolveEdgeTags k.boundaryCurves k.surfEdges intake
          else tier1EdgeTags k.boundaryCurves
        let t4 := t3 ++ [.getBoundary, .createEdges]
        -- lines 605–616: size field; lines 624–655: boundary layer field
        let sf := sizeFieldParams c.base_mesh_size m
        let blf := if edgeTags ≠ [] then some (blFieldOf c.bl) else none
        let t5 := t4 ++ [.fieldSetup]
        -- lines 680–713: staged mesh generation
        let md := meshDriver k.mesh
        let t6 := t5 ++ [.generateMesh]
        if ¬ md.2 then (.error "Error during mesh generation", t6)
        else
          -- lines 716–728: final export
          if ¬ k.exportOk then
            (.error "Error writing mesh file", t6 ++ [.writeMesh])
          else
            (.ok ⟨dom, fluidTag, intake, edgeTags, sf, blf⟩,
             t6 ++ [.writeMesh])

/-- The whole run of `main` after CLI parsing: validation (before any
engine call), import with new-entity detection, bounding-box
accumulation, domain synthesis, fragmentation, volume fallback tiers,
healing, then `pipelineRest`.  The second component records the engine
calls made, in order. -/
def pipeline (c0 : Config) (k : Kernel) :
    Except String PipeResult × List KCall :=
  match (validateParams c0).2 with
  | .error e => (.error e, [])
  | .ok c =>
    -- lines 215–228: entity snapshot and merge
    if ¬ k.mergeOk then
      (.error "Error merging STEP file", [.getEntities, .merge])
    else
      let t0 : List KCall := [.getEntities, .merge, .getEntities]
      -- lines 233–243
      let newEnts := importedEntities k.entsBefore k.entsAfter
      if newEnts = [] then
        (.error "Error: No geometry was imported from the STEP file.", t0)
      else
        -- lines 246–256
        let sv := newEnts.filter (fun e => 2 ≤ e.1)
        if sv = [] then
          (.error "Error: No surfaces or volumes found in the imported geometry.", t0)
        else
          -- lines 272–317: bounding box accumulation and domain box
          let bb := accumBBox (sv.map k.entBBox)
          let dom := synthDomain c.domain_scale bb
          let t1 := t0 ++ List.replicate sv.length KCall.getBoundingBox
                       ++ [.addBox, .fragment]
          -- lines 321–338: fragmentation, fatal on failure
          if ¬ k.fragOk then
            (.error "Error during fragmentation", t1)
          else
            -- lines 343–415: volume determination with fallbacks
            let volsPre := resolveVolumes k.volsAfterFrag k.surfacesPreVol
              k.surfaceLoopOk k.volsAfterLoopCreate k.lastResortBoxTag
            let t2 := t1 ++ [.getEntities] ++
              (if k.volsAfterFrag = [] then
                 [.getEntities] ++
                 (if k.surfacesPreVol ≠ [] then
                    [.addSurfaceLoop, .addVolume, .getEntities] else []) ++
                 (if (if k.surfacesPreVol ≠ [] ∧ k.surfaceLoopOk then
                        k.volsAfterLoopCreate else []) = [] then
                    [.getBoundingBox, .addBox] else [])
               else [])
            -- lines 417–440: best-effort healing; a failure the handler
            -- at line 437 cannot catch escapes to the outermost
            -- catch (...) and is fatal
            let t3 := t2 ++ (if volsPre ≠ [] then [.healShapes] else [])
            match healStage volsPre k.heal k.volsAfterHeal with
            | .error e => (.error e, t3)
            | .ok vols => pipelineRest c k dom (maxGeomDim bb) t3 vols

/-- A boundary-layer configuration rejected by the validation of
main.cpp lines 145, 147 and 148. -/
def invalidBL (c : Config) : Prop :=
  c.bl.thickness ≤ 0 ∨ c.bl.first_layer_thickness ≤ 0 ∨
  c.bl.thickness < c.bl.first_layer_thickness

instance (c : Config) : Decidable (invalidBL c) := by
  unfold invalidBL; infer_instance

/-- A concrete engine-response record in which every call succeeds and
every query is empty; used to evaluate the pipeline at closed inputs. -/
def trivialKernel : Kernel where
  entsBefore := []
  entsAfter := []
  mergeOk := true
  entBBox := fun _ => ⟨0, 0, 0, 0, 0, 0⟩
  fragOk := true
  fragMap := []
  volsAfterFrag := []
  surfacesPreVol := []
  surfaceLoopOk := true
  volsAfterLoopCreate := []
  lastResortBoxTag := 0
  heal := .ok
  volsAfterHeal := []
  surfacesAfterHeal := []
  fluidBoundaryOk := true
  fluidBoundary := []
  domainBoundaryOk := true
  domainBoxSurfaces := []
  boundaryCurves := []
  edgeEnumOk := true
  surfEdges := fun _ => []
  mesh := ⟨.ok, .ok, .ok, .ok, true⟩
  exportOk := true

/-- A concrete engine-response record for a run whose healing call
fails with a `std::exception`: one volume survives fragmentation,
healing throws, and the post-heal re-query (which never happens) would
have reported a different volume. -/
def healFailKernel : Kernel :=
  { trivialKernel with
      heal := .failStd
      volsAfterFrag := [(3, 2)]
      volsAfterHeal := [(3, 99)] }

/-- A concrete engine-response record for a run that reaches the
healing stage — one imported surface, one fragment volume — and whose
healing call throws outside the `std::exception` hierarchy. -/
def healUnknownKernel : Kernel :=
  { trivialKernel with
      entsAfter := [(2, 1)]
      volsAfterFrag := [(3, 2)]
      heal := .failUnknown }

/-- The tier-1 intake selection is an order-preserving selection from
the first fragmentation-map entry. -/
theorem tier1Intake_sublist (m : List (List Dimtag)) :
    (tier1Intake m).Sublist (m.headD []) := by
  cases m with
  | nil => simp [tier1Intake]
  | cons e rest => simp [tier1Intake, List.filter_sublist]

/-- A caught healing failure and a healing success that returns the
pre-heal set produce the same post-stage volume list. -/
theorem healStage_failStd_eq_ok (pre post : List Dimtag) :
    healStage pre .failStd post = healStage pre .ok pre := by
  unfold healStage; simp

/-- The intake-surface resolution always returns one of its three tiers
verbatim. -/
theorem resolveIntake_cases (m : List (List Dimtag)) (fb : List Dimtag)
    (dt : List ℤ) :
    resolveIntakeSurfaces m fb dt = tier1Intake m ∨
    resolveIntakeSurfaces m fb dt = tier2Intake fb dt ∨
    resolveIntakeSurfaces m fb dt = fb := by
  unfold resolveIntakeSurfaces
  by_cases h1 : tier1Intake m = [] <;> by_cases h2 : tier2Intake fb dt = [] <;>
    simp [h1, h2]

/-- C1: the claim states that tier 1 of intake-surface resolution
selects the dimension-2 entries of fragmentation-map entry index 1
(the imported-geometry input).  The code instead reads entry index 0
(main.cpp line 489: `outDimTagsMap[0]`), the entry of the domain-box
object, whose fragments are volumes; at the displayed map — one fluid
volume attributed to the box, two surfaces attributed to the imported
geometry — the code's tier 1 selects nothing while the specified tier 1
selects both imported surfaces. -/
theorem C1_tier1_reads_map_entry_zero :
    tier1Intake [[((3:ℤ), (5:ℤ))], [(2, 7), (2, 8)]] = [] ∧
    tier1IntakeSpec [[((3:ℤ), (5:ℤ))], [(2, 7), (2, 8)]] = [(2, 7), (2, 8)] := by
  constructor <;> rfl

/-- C2 counterexample: the claim says the per-surface edge enumeration
is used only when tier 1 yields an empty edge set, and that a non-empty
tier-1 set is final.  Here tier 1 yields edge 5, yet the final edge set
is edge 9, coming from the per-surface enumeration (main.cpp lines
572–578 overwrite the tier-1 result whenever the enumeration is
non-empty). -/
theorem C2_counterexample :
    tier1EdgeTags [((1:ℤ), (5:ℤ))] = [5] ∧
    resolveEdgeTags [((1:ℤ), (5:ℤ))]
      (fun t => if t = 7 then [((1:ℤ), (9:ℤ))] else []) [(2, 7)] = [9] ∧
    ([9] : List ℤ) ≠ [5] := by
  refine ⟨rfl, rfl, by decide⟩

/-- C2 (amended): the per-surface edge enumeration always runs; whenever
it returns any edge its result replaces tier 1's, and the tier-1 edge
set is final exactly when the enumeration comes back empty. -/
theorem C2_edge_enumeration_overrides (bc : List Dimtag)
    (se : ℤ → List Dimtag) (intake : List Dimtag) :
    (perSurfaceEdges se intake ≠ [] →
      resolveEdgeTags bc se intake =
        (perSurfaceEdges se intake).map (fun e => e.2)) ∧
    (perSurfaceEdges se intake = [] →
      resolveEdgeTags bc se intake = tier1EdgeTags bc) := by
  unfold resolveEdgeTags
  constructor <;> intro h <;> simp [h]

/-- C2 witness: the amended theorem evaluated on both branches — a
non-empty enumeration overriding a non-empty tier-1 set, and an empty
enumeration falling back to tier 1. -/
theorem C2_witness :
    resolveEdgeTags [((1:ℤ), (4:ℤ))]
      (fun t => if t = 6 then [((1:ℤ), (11:ℤ))] else []) [(2, 6)] = [11] ∧
    resolveEdgeTags [((1:ℤ), (4:ℤ))] (fun _ => []) [(2, 6)] = [4] := by
  constructor
  · exact ((C2_edge_enumeration_overrides [((1:ℤ), (4:ℤ))]
      (fun t => if t = 6 then [((1:ℤ), (11:ℤ))] else []) [(2, 6)]).1
      (by decide)).trans (by decide)
  · exact ((C2_edge_enumeration_overrides [((1:ℤ), (4:ℤ))]
      (fun _ => []) [(2, 6)]).2 rfl).trans rfl

/-- C4: the intake-surface tiers are strictly ordered — a non-empty
tier 1 is final, tier 2 is the result only when tier 1 is empty and
tier 2 is not, tier 3 (all fluid boundary surfaces) is the result only
when both earlier tiers are empty, and an empty result after tier 3 is
fatal (main.cpp lines 485–538). -/
theorem C4_intake_tier_ordering (m : List (List Dimtag))
    (fb : List Dimtag) (dt : List ℤ) :
    (tier1Intake m ≠ [] → resolveIntakeSurfaces m fb dt = tier1Intake m) ∧
    (tier1Intake m = [] → tier2Intake fb dt ≠ [] →
      resolveIntakeSurfaces m fb dt = tier2Intake fb dt) ∧
    (tier1Intake m = [] → tier2Intake fb dt = [] →
      resolveIntakeSurfaces m fb dt = fb) ∧
    (resolveIntakeSurfaces m fb dt = [] →
      intakeStage m fb dt = .error "Error: Could not identify intake surfaces.") := by
  refine ⟨?_, ?_, ?_, ?_⟩
  · intro h; simp [resolveIntakeSurfaces, h]
  · intro h1 h2; simp [resolveIntakeSurfaces, h1, h2]
  · intro h1 h2; simp [resolveIntakeSurfaces, h1, h2]
  · intro h; simp [intakeStage, h]

/-- C4 witness: the tier-ordering theorem evaluated at concrete inputs
exercising every tier and the fatal exhaustion case. -/
theorem C4_witness :
    resolveIntakeSurfaces [[((2:ℤ), (4:ℤ))]] [] [] = [(2, 4)] ∧
    resolveIntakeSurfaces [[((3:ℤ), (1:ℤ))]] [(2, 9)] [] = [(2, 9)] ∧
    resolveIntakeSurfaces [[((3:ℤ), (1:ℤ))]] [(2, 6)] [6] = [(2, 6)] ∧
    intakeStage [[((3:ℤ), (1:ℤ))]] [] [] =
      .error "Error: Could not identify intake surfaces." := by
  refine ⟨(C4_intake_tier_ordering [[((2:ℤ), (4:ℤ))]] [] []).1 (by decide),
          (C4_intake_tier_ordering [[((3:ℤ), (1:ℤ))]] [(2, 9)] []).2.1
            (by decide) (by decide),
          (C4_intake_tier_ordering [[((3:ℤ), (1:ℤ))]] [(2, 6)] [6]).2.2.1
            (by decide) (by decide),
          (C4_intake_tier_ordering [[((3:ℤ), (1:ℤ))]] [] []).2.2.2 (by decide)⟩

/-- C3 counterexample: the claim requires the order of selected entities
within each resolution to break ties by ascending entity tag; the code
never sorts, so when the fluid-boundary query reports surface 9 before
surface 7 the resolved intake list keeps that descending order. -/
theorem C3_counterexample :
    (resolveIntakeSurfaces [[((3:ℤ), (1:ℤ))]] [(2, 9), (2, 7)] []).map
        (fun s => s.2) = [9, 7] ∧
    ¬ List.Sorted (· ≤ ·) [(9:ℤ), 7] := by
  refine ⟨rfl, ?_⟩
  intro h
  exact absurd (List.rel_of_sorted_cons h 7 (by simp)) (by norm_num)

/-- C3 (amended): the pipeline is a pure function of the configuration
and of the engine's responses, so two runs on identical input with
identical engine responses yield identical entity-tag assignments and
field parameters; within each resolution the selection order is the
insertion order of the underlying engine data — an order-preserving
sublist of the fragmentation-map entry or query result — with no
ascending-tag sorting applied. -/
theorem C3_determinism_and_insertion_order (c : Config) (k : Kernel)
    (m : List (List Dimtag)) (fb : List Dimtag) (dt : List ℤ) :
    pipeline c k = pipeline c k ∧
    ((resolveIntakeSurfaces m fb dt).Sublist (m.headD []) ∨
      (resolveIntakeSurfaces m fb dt).Sublist fb) ∧
    (∀ bc se i, resolveEdgeTags bc se i =
        (perSurfaceEdges se i).map (fun e => e.2) ∨
      resolveEdgeTags bc se i = tier1EdgeTags bc) := by
  refine ⟨rfl, ?_, ?_⟩
  · rcases resolveIntake_cases m fb dt with h | h | h
    · left; rw [h]; exact tier1Intake_sublist m
    · right; rw [h]; exact List.filter_sublist fb
    · right; rw [h]
  · intro bc se i
    unfold resolveEdgeTags
    by_cases h : perSurfaceEdges se i = [] <;> simp [h]

/-- C5 counterexample: the claim says a 2D-stage failure always triggers
exactly one algorithm-fallback retry and that every fatal meshing
failure attempts the `_debug` partial export.  When the 2D stage fails
with an exception not derived from `std::exception`, the inner
`catch (const std::exception&)` handler (main.cpp line 690) does not
catch it; the outer `catch (...)` handler (line 710) aborts with no
retry and no export attempt. -/
theorem C5_counterexample :
    meshDriver ⟨.ok, .failUnknown, .ok, .ok, true⟩ =
      ([.generate 1, .generate 2], false) ∧
    MeshAct.setAlg2D 3 ∉ (meshDriver ⟨.ok, .failUnknown, .ok, .ok, true⟩).1 ∧
    MeshAct.writeDebug ∉ (meshDriver ⟨.ok, .failUnknown, .ok, .ok, true⟩).1 := by
  refine ⟨rfl, by decide, by decide⟩

/-- C5 (amended): for failures signalled as `std::exception`, a 2D-stage
failure triggers exactly one fallback retry (the 2D algorithm is set to
3 and `generate(2)` is issued a second time); a failing retry is fatal;
every fatal meshing failure signalled as `std::exception` (1D, 2D after
retry, or 3D) attempts the `_debug` partial export, whose own outcome
never influences the driver's result; failures outside `std::exception`
abort with neither retry nor export. -/
theorem C5_mesh_driver_retry_and_dump (o : MeshOutcomes) :
    (o.gen1 = .ok → o.gen2 = .failStd →
      (meshDriver o).1.count (MeshAct.generate 2) = 2 ∧
      MeshAct.setAlg2D 3 ∈ (meshDriver o).1) ∧
    (o.gen1 = .ok → o.gen2 = .failStd → o.gen2retry = .failStd →
      (meshDriver o).2 = false ∧ MeshAct.writeDebug ∈ (meshDriver o).1) ∧
    (o.gen1 = .failStd →
      (meshDriver o).2 = false ∧ MeshAct.writeDebug ∈ (meshDriver o).1 ∧
      MeshAct.setAlg2D 3 ∉ (meshDriver o).1) ∧
    (o.gen1 = .ok → o.gen3 = .failStd →
      (o.gen2 = .ok ∨ (o.gen2 = .failStd ∧ o.gen2retry = .ok)) →
      (meshDriver o).2 = false ∧ MeshAct.writeDebug ∈ (meshDriver o).1) ∧
    (o.gen1 = .ok → o.gen2 = .failUnknown →
      (meshDriver o).1.count (MeshAct.generate 2) ≤ 1 ∧
      MeshAct.writeDebug ∉ (meshDriver o).1) ∧
    (meshDriver { o with debugWriteOk := true } = meshDriver o ∧
     meshDriver { o with debugWriteOk := false } = meshDriver o) := by
  obtain ⟨g1, g2, gr, g3, w⟩ := o
  refine ⟨?_, ?_, ?_, ?_, ?_, ?_⟩ <;>
    cases g1 <;> cases g2 <;> cases gr <;> cases g3 <;> cases w <;> decide

/-- C5 witness: the amended driver theorem evaluated at a run whose 2D
stage and 2D retry both fail as `std::exception`: the run is fatal and
the partial-export attempt appears in the trace. -/
theorem C5_witness :
    (meshDriver ⟨.ok, .failStd, .failStd, .ok, true⟩).2 = false ∧
    MeshAct.writeDebug ∈ (meshDriver ⟨.ok, .failStd, .failStd, .ok, true⟩).1 :=
  (C5_mesh_driver_retry_and_dump ⟨.ok, .failStd, .failStd, .ok, true⟩).2.1
    rfl rfl rfl

/-- C6: the program's bounding-box accumulation (main.cpp line 283)
treats an accumulator whose x-range is exactly [0,0] as uninitialized
and REPLACES it with the current entity's box, discarding entities
already folded in.  With a first surface lying in the plane x = 0
(box (0,0,0)–(0,10,10)) and a second surface with box (1,0,0)–(2,1,1),
the accumulated box is just the second entity's box, the true
component-wise fold (0,0,0)–(2,10,10) is non-degenerate on every axis,
and the synthesized domain (scale 5) does not strictly contain it:
the fold's ymax = 10 lies outside the domain's y-range. -/
theorem C6_bbox_accumulation_violates_containment :
    accumBBox [⟨0, 0, 0, 0, 10, 10⟩, ⟨1, 0, 0, 2, 1, 1⟩] = ⟨1, 0, 0, 2, 1, 1⟩ ∧
    foldBBox ⟨0, 0, 0, 0, 10, 10⟩ [⟨1, 0, 0, 2, 1, 1⟩] = ⟨0, 0, 0, 2, 10, 10⟩ ∧
    accumBBox [⟨0, 0, 0, 0, 10, 10⟩, ⟨1, 0, 0, 2, 1, 1⟩] ≠
      foldBBox ⟨0, 0, 0, 0, 10, 10⟩ [⟨1, 0, 0, 2, 1, 1⟩] ∧
    (0 < (foldBBox ⟨0, 0, 0, 0, 10, 10⟩ [⟨1, 0, 0, 2, 1, 1⟩]).xmax -
          (foldBBox ⟨0, 0, 0, 0, 10, 10⟩ [⟨1, 0, 0, 2, 1, 1⟩]).xmin ∧
     0 < (foldBBox ⟨0, 0, 0, 0, 10, 10⟩ [⟨1, 0, 0, 2, 1, 1⟩]).ymax -
          (foldBBox ⟨0, 0, 0, 0, 10, 10⟩ [⟨1, 0, 0, 2, 1, 1⟩]).ymin ∧
     0 < (foldBBox ⟨0, 0, 0, 0, 10, 10⟩ [⟨1, 0, 0, 2, 1, 1⟩]).zmax -
          (foldBBox ⟨0, 0, 0, 0, 10, 10⟩ [⟨1, 0, 0, 2, 1, 1⟩]).zmin) ∧
    ¬ strictlyContains
        (synthDomain 5 (accumBBox [⟨0, 0, 0, 0, 10, 10⟩, ⟨1, 0, 0, 2, 1, 1⟩]))
        (foldBBox ⟨0, 0, 0, 0, 10, 10⟩ [⟨1, 0, 0, 2, 1, 1⟩]) := by
  refine ⟨by decide, by decide, by decide,
          by norm_num [foldBBox, bboxUnion, List.foldl, min_def, max_def],
          ?_⟩
  norm_num [strictlyContains, synthDomain, maxGeomDim, accumBBox, accumStep,
    bboxUnion, foldBBox, List.foldl, min_def, max_def]

/-- C7: for every axis whose scaled extent is below 1% of the largest
geometry extent, the synthesizer substitutes that largest extent
(main.cpp lines 308–310), and when the largest extent is positive no
axis of the domain box falls below 1% of it. -/
theorem C7_degenerate_axis_substitution (scale : ℚ) (bb : BBox) :
    (scale * (bb.xmax - bb.xmin) < maxGeomDim bb / 100 →
      (synthDomain scale bb).dx = maxGeomDim bb) ∧
    (scale * (bb.ymax - bb.ymin) < maxGeomDim bb / 100 →
      (synthDomain scale bb).dy = maxGeomDim bb) ∧
    (scale * (bb.zmax - bb.zmin) < maxGeomDim bb / 100 →
      (synthDomain scale bb).dz = maxGeomDim bb) ∧
    (0 < maxGeomDim bb →
      maxGeomDim bb / 100 ≤ (synthDomain scale bb).dx ∧
      maxGeomDim bb / 100 ≤ (synthDomain scale bb).dy ∧
      maxGeomDim bb / 100 ≤ (synthDomain scale bb).dz) := by
  unfold synthDomain
  refine ⟨fun h => by simp [h], fun h => by simp [h], fun h => by simp [h],
         fun hm => ⟨?_, ?_, ?_⟩⟩ <;>
    · dsimp only
      split_ifs with h
      · linarith
      · linarith

/-- C7 witness: a near-flat geometry (x-extent 1/1000 against a largest
extent of 1) at scale 5 has its x-axis domain extent replaced by the
largest extent. -/
theorem C7_witness :
    (5:ℚ) * ((⟨0, 0, 0, 1/1000, 1, 1⟩ : BBox).xmax -
        (⟨0, 0, 0, 1/1000, 1, 1⟩ : BBox).xmin) <
      maxGeomDim ⟨0, 0, 0, 1/1000, 1, 1⟩ / 100 ∧
    (synthDomain 5 ⟨0, 0, 0, 1/1000, 1, 1⟩).dx =
      maxGeomDim ⟨0, 0, 0, 1/1000, 1, 1⟩ := by
  refine ⟨by norm_num [maxGeomDim, max_def],
          (C7_degenerate_axis_substitution 5 _).1
            (by norm_num [maxGeomDim, max_def])⟩

/-- C8: a configuration with non-positive total thickness, non-positive
first-layer thickness, or total thickness below the first-layer
thickness is rejected fatally during validation (main.cpp lines
145–148), before any call reaches the geometry engine: the run fails
and the engine-call trace is empty. -/
theorem C8_invalid_bl_rejected_before_geometry (c : Config) (k : Kernel)
    (h : invalidBL c) :
    (∃ msg, (pipeline c k).1 = .error msg) ∧ (pipeline c k).2 = [] := by
  have hv : ∃ msg, (validateParams c).2 = .error msg := by
    unfold validateParams
    rcases h with h | h | h <;> split_ifs <;> exact ⟨_, rfl⟩
  obtain ⟨msg, hm⟩ := hv
  unfold pipeline
  rw [hm]
  exact ⟨⟨msg, rfl⟩, rfl⟩

/-- C8 witness: the validation theorem evaluated at a configuration with
zero total boundary-layer thickness: the run fails with no engine call
recorded. -/
theorem C8_witness :
    invalidBL { bl := { thickness := 0 } } ∧
    (∃ msg, (pipeline { bl := { thickness := 0 } } trivialKernel).1 =
      .error msg) ∧
    (pipeline { bl := { thickness := 0 } } trivialKernel).2 = [] := by
  have h : invalidBL { bl := { thickness := 0 } } := by
    unfold invalidBL; left; norm_num
  exact ⟨h,
    (C8_invalid_bl_rejected_before_geometry { bl := { thickness := 0 } }
      trivialKernel h).1,
    (C8_invalid_bl_rejected_before_geometry { bl := { thickness := 0 } }
      trivialKernel h).2⟩

/-- C9 counterexample: the claim says that in every run in which the
healing stage fails, the failure is caught and the run does not abort.
The heal handler (main.cpp line 437) catches `std::exception` only; at
this concrete run — one imported surface, one fragment volume, a heal
call throwing outside the `std::exception` hierarchy — the failure
escapes to the outermost `catch (...)` handler (line 735) and the run
aborts with a fatal error. -/
theorem C9_counterexample :
    healUnknownKernel.heal = Outcome.failUnknown ∧
    (pipeline {} healUnknownKernel).1 =
      .error "An unknown error occurred during the meshing process." := by
  constructor
  · rfl
  · norm_num [pipeline, validateParams, importedEntities, resolveVolumes,
      healStage, healUnknownKernel, trivialKernel]

/-- C9 (amended): a healing failure signalled as `std::exception` is
caught, leaves the resolved volume set exactly as it was before the
heal attempt, and makes the whole run indistinguishable from one whose
heal succeeded returning the pre-heal volumes — such a run does not
abort on account of the heal failure; a healing failure outside the
`std::exception` hierarchy escapes the heal handler and is fatal. -/
theorem C9_heal_failure_paths (c : Config) (k : Kernel) :
    (∀ pre post, healStage pre .failStd post = .ok pre) ∧
    (∀ pre post, pre ≠ [] → healStage pre .failUnknown post =
      .error "An unknown error occurred during the meshing process.") ∧
    (k.heal = .failStd →
      pipeline c k =
        pipeline c
          { k with
              heal := .ok,
              volsAfterHeal := resolveVolumes k.volsAfterFrag k.surfacesPreVol
                k.surfaceLoopOk k.volsAfterLoopCreate k.lastResortBoxTag }) := by
  refine ⟨?_, ?_, ?_⟩
  · intro pre post; unfold healStage; simp
  · intro pre post h; unfold healStage; simp [h]
  · intro h
    obtain ⟨eb, ea, mok, ebb, fok, fm, vaf, spv, slo, valc, lrt, hok, vah,
      sah, fbo, fbd, dbo, dbs, bcv, eeo, se, ms, eo⟩ := k
    simp only at h
    subst h
    unfold pipeline
    cases hv : (validateParams c).2 with
    | error e => rfl
    | ok c1 =>
      simp only [healStage_failStd_eq_ok]
      rfl

/-- C9 witness: the amended heal theorem evaluated concretely — a
caught failure keeps the pre-heal volume, an uncaught failure turns
fatal, and the caught-failure run equals the corresponding heal-success
run. -/
theorem C9_witness :
    healStage [((3:ℤ), (2:ℤ))] .failStd [(3, 99)] = .ok [(3, 2)] ∧
    healStage [((3:ℤ), (2:ℤ))] .failUnknown [(3, 99)] =
      .error "An unknown error occurred during the meshing process." ∧
    pipeline {} healFailKernel =
      pipeline {}
        { healFailKernel with
            heal := .ok,
            volsAfterHeal := resolveVolumes healFailKernel.volsAfterFrag
              healFailKernel.surfacesPreVol healFailKernel.surfaceLoopOk
              healFailKernel.volsAfterLoopCreate
              healFailKernel.lastResortBoxTag } :=
  ⟨(C9_heal_failure_paths {} healFailKernel).1 [(3, 2)] [(3, 99)],
   (C9_heal_failure_paths {} healFailKernel).2.1 [(3, 2)] [(3, 99)]
     (by decide),
   (C9_heal_failure_paths {} healFailKernel).2.2 rfl⟩

/-- C10: a domain-scale value ≤ 1.0 is not fatal (main.cpp line 143):
validation emits the warning, continues with the scale replaced by 1.5,
and otherwise behaves exactly as it would on the replaced scale —
producing a successful configuration whenever the remaining parameters
are in range — whereas, by contrast, a non-positive base mesh size
aborts with an error. -/
theorem C10_domain_scale_warning_not_fatal (c : Config)
    (h : c.domain_scale ≤ 1) :
    (validateParams c).1 =
      "Warning: domain_scale should be > 1.0" ::
        (validateParams { c with domain_scale := 3/2 }).1 ∧
    (validateParams c).2 = (validateParams { c with domain_scale := 3/2 }).2 ∧
    (0 < c.base_mesh_size → 0 < c.bl.first_layer_thickness →
      0 < c.bl.thickness → c.bl.first_layer_thickness ≤ c.bl.thickness →
      (validateParams c).2 = .ok { c with domain_scale := 3/2 }) ∧
    (c.base_mesh_size ≤ 0 →
      (validateParams c).2 = .error "Error: base_mesh_size must be positive.") := by
  obtain ⟨ds, bms, a2, a3, onet, bl⟩ := c
  simp only at h
  unfold validateParams
  dsimp only
  rw [if_pos h, if_neg (by norm_num : ¬ (3:ℚ)/2 ≤ 1)]
  refine ⟨?_, ?_, ?_, ?_⟩
  · split_ifs <;> simp
  · split_ifs <;> rfl
  · intro h1 h2 h3 h4
    split_ifs <;> first | rfl | linarith
  · intro h1
    split_ifs
    rfl

/-- C10 witness: the warning theorem evaluated at scale 1/2 with the
default (valid) remaining parameters: validation succeeds with the
scale replaced by 3/2, emitting exactly the warning. -/
theorem C10_witness :
    ({ domain_scale := 1/2 } : Config).domain_scale ≤ 1 ∧
    (validateParams { domain_scale := 1/2 }).2 =
      .ok { domain_scale := 3/2 } ∧
    (validateParams { domain_scale := 1/2 }).1 =
      ["Warning: domain_scale should be > 1.0"] := by
  refine ⟨by norm_num, ?_, ?_⟩
  · exact (C10_domain_scale_warning_not_fatal { domain_scale := 1/2 }
      (by norm_num)).2.2.1 (by norm_num) (by norm_num) (by norm_num)
      (by norm_num)
  · rw [(C10_domain_scale_warning_not_fatal { domain_scale := 1/2 }
      (by norm_num)).1]
    norm_num [validateParams]

end CFD
